import Mathlib

/-!
A verification development for the safety process of the HordeWorkerReGen
repository (`horde_worker_regen/process_management/safety_process.py`).

The per-message handler `_receive_and_handle_control_message` is embedded
below as a pure function.  External effects are captured explicitly:

* base64-decoding plus `PIL.Image.open` is one deterministic capability
  `decodeImage : String → Option String` (`none` models a raised
  `OSError`/`ValueError`); PIL seeks the stream back to the start, so both
  `Image.open(image_bytes)` calls in the source see the same bytes and the
  capability is a function of those bytes;
* the NSFW/CSAM classifier is `checkForNsfw` returning `Option NSFWResult`
  (`none` models the `None` result which the source turns into a
  `RuntimeError`);
* a raised exception while saving with embedded metadata is the oracle
  `embedSaveFails`;
* a caught metadata-extraction error (`except (KeyError, ValueError,
  TypeError)` at lines 348-351) is the oracle `metaKeep`: `some k` means the
  exception fired after `k` metadata entries had been added, leaving the
  partially built `PngInfo` object in place (the source never resets
  `metadata` to `None` on that path);
* the filesystem is a record of directories, a permission map and a file
  map; disk writes performed by the loop are returned as an ordered list of
  `FileWrite`s and applied by `applyWrites`.

Message classes (`HordeSafetyControlMessage`, `HordeSafetyEvaluation`,
`HordeSafetyResultMessage`, `HordeSavedImageInfo`, `HordeControlFlag`) are
declared in `horde_worker_regen/process_management/messages.py`, which is not
among the provided sources; their fields are modelled from their use sites in
`safety_process.py` and from the spec's data model (&#167;3), including the
`failed` flag defaulting to `false` (the constructor call at line 435 omits
it, the fail-closed constructor call at line 362 passes `failed=True`).
Python values that the source formats through `json.dumps`/`str` before
embedding are modelled as their final string form.
-/

/-- Control flags of the inter-process protocol.  Modelled from the spec
(&#167;3, "ControlMessage") and the use of `HordeControlFlag.EVALUATE_SAFETY`
in the source; the message module itself is not among the provided files. -/
inductive HordeControlFlag where
  | EVALUATE_SAFETY
  | RUN_INFERENCE
  | DOWNLOAD_MODEL
  | SHUTDOWN
deriving DecidableEq, Repr

/-- Result of the external NSFW/CSAM classifier capability
(`horde_safety.nsfw_checker_class.NSFWResult`); only the two fields the
safety process reads are modelled. -/
structure NSFWResult where
  is_nsfw : Bool
  is_csam : Bool
deriving DecidableEq, Repr

/-- The free-form generation metadata attached to an `EVALUATE_SAFETY`
message, typed by the keys `_receive_and_handle_control_message` reads.
Values the source would format via `json.dumps`/`str` are modelled as their
final string form.  `lora_extraction_fails` models the caught
`AttributeError`/`KeyError`/`TypeError` while walking the `loras` payload
(lines 331-336); `loras_extracted_hashes` is the hash list that walk yields
when it succeeds. -/
structure GenerationMetadata where
  sanitized_negative_prompt : Option String := none
  model : Option String := none
  model_hash : Option String := none
  sampler_name : Option String := none
  seed : Option String := none
  seed_resize_from : Option String := none
  seed_resize_from_width : Option String := none
  seed_resize_from_height : Option String := none
  cfg_scale : Option String := none
  denoising_strength : Option String := none
  steps : Option String := none
  ddim_steps : Option String := none
  version : Option String := none
  post_processing : Option (List String) := none
  lora_descriptions : List String := []
  lora_hashes : Option (List String) := none
  loras_extracted_hashes : List String := []
  lora_extraction_fails : Bool := false
  karras : Option Bool := none
  schedule_type_present : Bool := false
deriving DecidableEq, Repr

/-- The `EVALUATE_SAFETY` control message, fields modelled from the use
sites in `safety_process.py` (job id, base64 images, prompt, policy flags,
model info, generation metadata). -/
structure HordeSafetyControlMessage where
  control_flag : HordeControlFlag
  job_id : String
  images_base64 : List String
  prompt : String
  censor_nsfw : Bool
  sfw_worker : Bool
  horde_model_info : String
  generation_metadata : Option GenerationMetadata
deriving DecidableEq, Repr

/-- Per-image safety evaluation (spec &#167;3); `failed` defaults to `false`,
matching the constructor call at line 435 which omits it. -/
structure HordeSafetyEvaluation where
  is_nsfw : Bool
  is_csam : Bool
  replacement_image_base64 : Option String
  failed : Bool := false
deriving DecidableEq, Repr

/-- Descriptor of a saved image (spec &#167;3): output path and whether
provenance metadata was embedded into the file. -/
structure HordeSavedImageInfo where
  path : String
  metadata_embedded : Bool
deriving DecidableEq, Repr

/-- The result message the safety process puts on the shared queue
(lines 448-460); supervisor routing fields (process id, launch identifier,
info text) are orthogonal to the claims and omitted. -/
structure HordeSafetyResultMessage where
  job_id : String
  time_elapsed : Nat
  safety_evaluations : List HordeSafetyEvaluation
  saved_images : List HordeSavedImageInfo
deriving DecidableEq, Repr

/-- The censor placeholder images held by `HordeSafetyProcess`, loaded once
from the assets folder by `load_censor_files` (base64 of the four PNG
files). -/
structure HordeSafetyProcessState where
  censor_csam_image_base64 : String
  censor_censorlist_image_base64 : String
  censor_sfw_request_image_base64 : String
  censor_sfw_worker_image_base64 : String
deriving DecidableEq, Repr

/-- The uncaught exceptions `_receive_and_handle_control_message` can raise:
a `TypeError` for a non-safety message (line 186), a `ValueError` for a
wrong control flag (line 189), a PIL error from the unguarded
`Image.open` at line 237, and the `RuntimeError` for a `None` classifier
result (line 380). -/
inductive SafetyError where
  | typeError
  | valueError (flag : HordeControlFlag)
  | unidentifiedImage
  | nsfwResultNone
deriving DecidableEq, Repr

/-- The parts of the `datetime.now()` value captured at line 208, in their
`strftime` renderings: `%Y`, `%m`, `%d` and the `%H-%M-%S.%f` clock part
already truncated to milliseconds (line 233 drops the last three digits). -/
structure DateParts where
  year : String
  month : String
  day : String
  clock : String
deriving DecidableEq, Repr

/-- `base_output_directory` (line 205). -/
def base_output_directory : String := "/output"

/-- `os.path.join(base_output_directory, year)` (line 217). -/
def year_dir (now : DateParts) : String :=
  base_output_directory ++ "/" ++ now.year

/-- The `%Y-%m` string (line 210). -/
def year_month (now : DateParts) : String :=
  now.year ++ "-" ++ now.month

/-- `os.path.join(year_dir, year_month)` (line 218). -/
def year_month_dir (now : DateParts) : String :=
  year_dir now ++ "/" ++ year_month now

/-- The `%Y-%m-%d` string (line 211). -/
def year_month_day (now : DateParts) : String :=
  now.year ++ "-" ++ now.month ++ "-" ++ now.day

/-- `os.path.join(year_month_dir, year_month_day)` (line 219). -/
def year_month_day_dir (now : DateParts) : String :=
  year_month_dir now ++ "/" ++ year_month_day now

/-- The full output directory (line 214); identical to
`year_month_day_dir`. -/
def output_directory (now : DateParts) : String :=
  year_month_day_dir now

/-- The `%Y-%m-%d_%H-%M-%S.%f` timestamp truncated to milliseconds
(line 233), rendered from the `now` value captured before the loop. -/
def timestampStr (now : DateParts) : String :=
  year_month_day now ++ "_" ++ now.clock

/-- `os.path.join(output_directory, timestamp + ".png")` (line 234). -/
def outputPath (now : DateParts) : String :=
  output_directory now ++ "/" ++ timestampStr now ++ ".png"

/-- Python `str.split("###")` restricted to what the source reads: scan the
characters left to right, cutting at each non-overlapping occurrence of
three consecutive hash marks. -/
def splitOnTripleHash : List Char → List Char → List (List Char)
  | [], acc => [acc.reverse]
  | '#' :: '#' :: '#' :: rest, acc => acc.reverse :: splitOnTripleHash rest []
  | c :: rest, acc => splitOnTripleHash rest (c :: acc)

/-- Lines 249-258: if the prompt contains the `###` delimiter, the positive
prompt is the part before the first occurrence and the negative prompt the
part between the first and second occurrence (`parts[0]`, `parts[1]`);
otherwise the whole prompt is positive and the negative prompt is empty. -/
def splitPrompt (prompt : String) : String × String :=
  match splitOnTripleHash prompt.data [] with
  | [] => ("", "")
  | [p] => (String.mk p, "")
  | p :: n :: _ => (String.mk p, String.mk n)

/-- `_add_metadata_text` (lines 275-282): `None` becomes the empty string,
anything else its string form (values are modelled post-formatting). -/
def addMetadataText (key : String) (value : Option String) : String × String :=
  (key, value.getD "")

/-- The `LoRA hashes` value (lines 314-341): an explicit `lora_hashes` list
is joined; otherwise the hashes extracted from the `loras` payload are
joined, unless that walk raised a caught error, in which case `lora_hashes`
stays `None` and the entry value is empty. -/
def loraHashesValue (gm : GenerationMetadata) : Option String :=
  match gm.lora_hashes with
  | some hs => some (String.intercalate ", " hs)
  | none =>
    if gm.lora_extraction_fails then none
    else some (String.intercalate ", " gm.loras_extracted_hashes)

/-- The metadata entries built at lines 247-345, in order, before the
`Safety` tag is appended.  `nowIso` is the `datetime.now().isoformat` string
read at line 272. -/
def buildMetadataEntries (nowIso : String) (m : HordeSafetyControlMessage) :
    List (String × String) :=
  let split := splitPrompt m.prompt
  let gm := m.generation_metadata.getD {}
  [("Positive prompt", split.1),
   ("Negative prompt", gm.sanitized_negative_prompt.getD split.2),
   ("Created at", nowIso),
   addMetadataText "Model name" gm.model,
   addMetadataText "Model hash" gm.model_hash,
   addMetadataText "Sampler" gm.sampler_name,
   addMetadataText "Seed" gm.seed,
   addMetadataText "Seed resize from" gm.seed_resize_from,
   addMetadataText "Seed resize from width" gm.seed_resize_from_width,
   addMetadataText "Seed resize from height" gm.seed_resize_from_height,
   addMetadataText "CFG scale" gm.cfg_scale,
   addMetadataText "Denoising strength" gm.denoising_strength,
   addMetadataText "Steps" (gm.steps.orElse fun _ => gm.ddim_steps),
   addMetadataText "Version" gm.version,
   addMetadataText "Post processing" (gm.post_processing.map (String.intercalate ", ")),
   ("Loras",
     if gm.lora_descriptions.isEmpty then ""
     else String.intercalate ", " gm.lora_descriptions),
   addMetadataText "LoRA hashes" (loraHashesValue gm)] ++
  (match gm.karras with
   | some k =>
     if gm.schedule_type_present then []
     else [addMetadataText "Schedule type" (some (if k then "karras" else "native"))]
   | none => [])

/-- The external capabilities and failure oracles of one handler run. -/
structure SafetyEnv where
  decodeImage : String → Option String
  checkForNsfw : String → String → String → Option NSFWResult
  embedSaveFails : String → Bool
  metaKeep : String → Option Nat
  nowIso : String
  timeElapsed : Nat

/-- The metadata entries actually held by the `PngInfo` object for one
image: the full list, or the prefix built before a caught extraction error
fired (the `except` at lines 348-351 keeps the partially built object). -/
def metadataEntriesFor (env : SafetyEnv) (m : HordeSafetyControlMessage)
    (img64 : String) : List (String × String) :=
  match env.metaKeep img64 with
  | none => buildMetadataEntries env.nowIso m
  | some k => (buildMetadataEntries env.nowIso m).take k

/-- Replacement-image resolution (lines 382-392): CSAM placeholder first,
then the SFW-worker placeholder, then the SFW-request placeholder used for
`censor_nsfw` requests, else no replacement. -/
def resolveReplacement (proc : HordeSafetyProcessState)
    (m : HordeSafetyControlMessage) (r : NSFWResult) : Option String :=
  if r.is_csam then some proc.censor_csam_image_base64
  else if m.sfw_worker && r.is_nsfw then some proc.censor_sfw_worker_image_base64
  else if m.censor_nsfw && r.is_nsfw then some proc.censor_sfw_request_image_base64
  else none

/-- Python truthiness of an optional string: `None` and the empty string are
falsy (the `elif replacement_image_base64:` test at line 398). -/
def pyTruthyStr : Option String → Bool
  | none => false
  | some s => decide (s ≠ "")

/-- The `Safety` tag value (lines 395-403). -/
def safetyTagValue (r : NSFWResult) (replacement : Option String) : String :=
  if r.is_csam then "csam"
  else if pyTruthyStr replacement then "censored"
  else if r.is_nsfw then "nsfw"
  else "clean"

/-- The `Safety` verdict exactly as the specification words it: `csam` when
flagged CSAM, otherwise `censored` when a replacement image was resolved,
otherwise `nsfw` when flagged NSFW, otherwise `clean`. -/
def safetySpecVerdict (csam nsfw replacementResolved : Bool) : String :=
  if csam then "csam"
  else if replacementResolved then "censored"
  else if nsfw then "nsfw"
  else "clean"

/-- One file written to disk: the target path, the image content written
(always the originally decoded image) and the metadata embedded into the
file, `none` for a plain save. -/
structure FileWrite where
  path : String
  content : String
  pnginfo : Option (List (String × String))
deriving DecidableEq, Repr

/-- Everything one loop iteration contributes: the safety evaluation
appended, the saved-image descriptor appended (none on the fail-closed
path, which saves nothing) and the disk writes performed. -/
structure ImageOutcome where
  eval : HordeSafetyEvaluation
  saved : Option HordeSavedImageInfo
  writes : List FileWrite
deriving DecidableEq, Repr

/-- The fail-closed evaluation appended at lines 362-369. -/
def failClosedEvaluation : HordeSafetyEvaluation :=
  { is_nsfw := true, is_csam := true, replacement_image_base64 := none,
    failed := true }

/-- One iteration of the per-image loop (lines 228-441).  The first
`Image.open` at line 237 sits outside every `try` block, so a decode
failure there propagates (`.error`); the guarded second `Image.open` at
line 357 re-reads the same bytes and its failure branch appends the
fail-closed evaluation and continues. -/
def processImage (env : SafetyEnv) (proc : HordeSafetyProcessState)
    (now : DateParts) (m : HordeSafetyControlMessage) (img64 : String) :
    Except SafetyError ImageOutcome :=
  match env.decodeImage img64 with
  | none => .error .unidentifiedImage
  | some image_as_pil_0 =>
    let output_path := outputPath now
    let metadata : Option (List (String × String)) :=
      some (metadataEntriesFor env m img64)
    match env.decodeImage img64 with
    | none =>
      .ok { eval := failClosedEvaluation, saved := none, writes := [] }
    | some image_as_pil =>
      match env.checkForNsfw image_as_pil m.prompt m.horde_model_info with
      | none => .error .nsfwResultNone
      | some nsfw_result =>
        let replacement_image_base64 := resolveReplacement proc m nsfw_result
        let metadata := metadata.map fun entries =>
          entries ++ [("Safety", safetyTagValue nsfw_result replacement_image_base64)]
        let eval : HordeSafetyEvaluation :=
          { is_nsfw := nsfw_result.is_nsfw, is_csam := nsfw_result.is_csam,
            replacement_image_base64 := replacement_image_base64 }
        match metadata with
        | some entries =>
          if env.embedSaveFails image_as_pil_0 then
            .ok { eval := eval,
                  saved := some { path := output_path, metadata_embedded := false },
                  writes := [{ path := output_path, content := image_as_pil_0,
                               pnginfo := none }] }
          else
            .ok { eval := eval,
                  saved := some { path := output_path, metadata_embedded := true },
                  writes := [{ path := output_path, content := image_as_pil_0,
                               pnginfo := some entries }] }
        | none =>
          .ok { eval := eval,
                saved := some { path := output_path, metadata_embedded := false },
                writes := [{ path := output_path, content := image_as_pil_0,
                             pnginfo := none }] }

/-- Sequential processing with the first uncaught exception aborting the
run, as in the Python loop. -/
def mapExcept {α β ε : Type} (f : α → Except ε β) : List α → Except ε (List β)
  | [] => .ok []
  | x :: xs =>
    match f x with
    | .error e => .error e
    | .ok y =>
      match mapExcept f xs with
      | .error e => .error e
      | .ok ys => .ok (y :: ys)

/-- The result message together with the ordered disk writes of the run. -/
structure EvaluateOutput where
  result : HordeSafetyResultMessage
  writes : List FileWrite
deriving DecidableEq, Repr

/-- The body of `_receive_and_handle_control_message` after the dir setup:
run the loop over all images, then bundle one evaluation per processed
image and the saved-image descriptors into the result message put on the
queue (lines 448-460). -/
def handleEvaluateSafety (env : SafetyEnv) (proc : HordeSafetyProcessState)
    (now : DateParts) (m : HordeSafetyControlMessage) :
    Except SafetyError EvaluateOutput :=
  match mapExcept (processImage env proc now m) m.images_base64 with
  | .error e => .error e
  | .ok outcomes =>
    .ok { result := { job_id := m.job_id, time_elapsed := env.timeElapsed,
                      safety_evaluations := outcomes.map (·.eval),
                      saved_images := outcomes.filterMap (·.saved) },
          writes := (outcomes.map (·.writes)).flatten }

/-- An inbound control message: either a `HordeSafetyControlMessage` or an
instance of some other message class (carrying whatever flag it has). -/
inductive HordeControlMessage where
  | safety (m : HordeSafetyControlMessage)
  | nonSafety (control_flag : HordeControlFlag)

/-- `_receive_and_handle_control_message` (lines 184-461): a non-safety
message raises `TypeError` (line 186), a wrong control flag raises
`ValueError` (line 189), otherwise the batch is evaluated. -/
def receive_and_handle_control_message (env : SafetyEnv)
    (proc : HordeSafetyProcessState) (now : DateParts) :
    HordeControlMessage → Except SafetyError EvaluateOutput
  | .nonSafety _ => .error .typeError
  | .safety m =>
    if m.control_flag = HordeControlFlag.EVALUATE_SAFETY then
      handleEvaluateSafety env proc now m
    else .error (.valueError m.control_flag)

/-- A filesystem view: the set of existing directories, a permission map
over paths, and the image files written so far. -/
structure FileSystem where
  dirs : List String
  perms : String → Option Nat
  files : String → Option String

/-- `os.makedirs(..., exist_ok=True)` (line 222): create every listed
directory that does not already exist, top-down; never an error. -/
def makedirs (fs : FileSystem) (ds : List String) : FileSystem :=
  { fs with dirs := ds.foldl (fun acc d => acc.insert d) fs.dirs }

/-- `os.chmod(d, mode)` (line 226). -/
def chmod (fs : FileSystem) (d : String) (mode : Nat) : FileSystem :=
  { fs with perms := fun p => if p = d then some mode else fs.perms p }

/-- Lines 204-226: build the date-partitioned output directory, create the
missing levels (`os.makedirs` with `exist_ok=True` also creates the base
directory when absent), then apply mode `0o777` (511) to exactly the year,
year-month and year-month-day directories. -/
def setup_output_directory (fs : FileSystem) (now : DateParts) : FileSystem :=
  let fs1 := makedirs fs
    [base_output_directory, year_dir now, year_month_dir now, year_month_day_dir now]
  [year_dir now, year_month_dir now, year_month_day_dir now].foldl
    (fun s d => chmod s d 511) fs1

/-- Apply the disk writes of a run, in order; a later write to the same
path overwrites an earlier one. -/
def applyWrites (files : String → Option String) :
    List FileWrite → (String → Option String)
  | [] => files
  | w :: ws =>
    applyWrites (fun p => if p = w.path then some w.content else files p) ws

/-- Modelled from the spec: the polling interval
`HordeWorkerProcessManager._api_get_user_info_interval` lives in
`horde_worker_regen/process_management/process_manager.py`, which is not
among the provided sources (only its test is).  The spec fixes the
user-info/kudos polling floor at 60 seconds as a hard invariant (&#167;4.4,
&#167;8), and `tests/test_kudos_interval.py` asserts the attribute is at
least 60. -/
def api_get_user_info_interval : Nat := 60

/-! ### Concrete instances used in witnesses and counterexamples -/

/-- A benign environment: every image decodes to itself, the classifier
flags nothing, metadata extraction and the metadata-embedding save
succeed. -/
def env0 : SafetyEnv :=
  { decodeImage := fun s => some s,
    checkForNsfw := fun _ _ _ => some { is_nsfw := false, is_csam := false },
    embedSaveFails := fun _ => false,
    metaKeep := fun _ => none,
    nowIso := "t",
    timeElapsed := 7 }

/-- Like `env0` but the classifier flags NSFW and CSAM. -/
def envCsam : SafetyEnv :=
  { env0 with checkForNsfw := fun _ _ _ => some { is_nsfw := true, is_csam := true } }

/-- Like `env0` but the image whose base64 payload is `"corrupt"` does not
decode. -/
def envC1 : SafetyEnv :=
  { env0 with decodeImage := fun s => if s = "corrupt" then none else some s }

/-- Like `env0` but saving with embedded metadata raises. -/
def envEmbedFail : SafetyEnv :=
  { env0 with embedSaveFails := fun _ => true }

/-- Concrete censor placeholders. -/
def proc0 : HordeSafetyProcessState :=
  { censor_csam_image_base64 := "csam64",
    censor_censorlist_image_base64 := "cl64",
    censor_sfw_request_image_base64 := "req64",
    censor_sfw_worker_image_base64 := "work64" }

/-- A concrete captured datetime. -/
def now0 : DateParts :=
  { year := "2025", month := "01", day := "02", clock := "03-04-05.678" }

/-- A one-image `EVALUATE_SAFETY` message. -/
def msg0 : HordeSafetyControlMessage :=
  { control_flag := .EVALUATE_SAFETY, job_id := "job",
    images_base64 := ["a"], prompt := "p", censor_nsfw := false,
    sfw_worker := false, horde_model_info := "", generation_metadata := none }

/-- A two-image `EVALUATE_SAFETY` message. -/
def msg2 : HordeSafetyControlMessage :=
  { msg0 with images_base64 := ["a", "b"] }

/-- A three-image batch whose second image does not decode under
`envC1`. -/
def msgC1 : HordeSafetyControlMessage :=
  { msg0 with images_base64 := ["img1", "corrupt", "img3"] }

/-- A safety control message carrying the wrong control flag. -/
def msgShutdown : HordeSafetyControlMessage :=
  { msg0 with control_flag := .SHUTDOWN }

/-- An empty filesystem. -/
def fs0 : FileSystem :=
  { dirs := [], perms := fun _ => none, files := fun _ => none }

/-- The output path all images of a batch handled at `now0` share. -/
def path0 : String :=
  "/output/2025/2025-01/2025-01-02/2025-01-02_03-04-05.678.png"

/-- The metadata entries built for `msg0` under `env0`, with the clean
verdict tag. -/
def entriesClean : List (String × String) :=
  [("Positive prompt", "p"), ("Negative prompt", ""), ("Created at", "t"),
   ("Model name", ""), ("Model hash", ""), ("Sampler", ""), ("Seed", ""),
   ("Seed resize from", ""), ("Seed resize from width", ""),
   ("Seed resize from height", ""), ("CFG scale", ""),
   ("Denoising strength", ""), ("Steps", ""), ("Version", ""),
   ("Post processing", ""), ("Loras", ""), ("LoRA hashes", ""),
   ("Safety", "clean")]

/-- The metadata entries built for `msg0` under `envCsam`, with the CSAM
verdict tag. -/
def entriesCsam : List (String × String) :=
  [("Positive prompt", "p"), ("Negative prompt", ""), ("Created at", "t"),
   ("Model name", ""), ("Model hash", ""), ("Sampler", ""), ("Seed", ""),
   ("Seed resize from", ""), ("Seed resize from width", ""),
   ("Seed resize from height", ""), ("CFG scale", ""),
   ("Denoising strength", ""), ("Steps", ""), ("Version", ""),
   ("Post processing", ""), ("Loras", ""), ("LoRA hashes", ""),
   ("Safety", "csam")]

/-- A clean-image write under `env0`. -/
def writeClean (content : String) : FileWrite :=
  { path := path0, content := content, pnginfo := some entriesClean }

/-- The result message the handler produces for `msg2` under `env0`. -/
def resultMsg2 : HordeSafetyResultMessage :=
  { job_id := "job"
    time_elapsed := 7
    safety_evaluations :=
      [{ is_nsfw := false, is_csam := false,
         replacement_image_base64 := none, failed := false },
       { is_nsfw := false, is_csam := false,
         replacement_image_base64 := none, failed := false }]
    saved_images :=
      [{ path := path0, metadata_embedded := true },
       { path := path0, metadata_embedded := true }] }

/-- The output the handler produces for `msg2` under `env0`. -/
def out2 : EvaluateOutput :=
  { result := resultMsg2, writes := [writeClean "a", writeClean "b"] }

/-! ### Helper lemmas -/

/-- The outcome one loop iteration produces when the image decodes to `pil`
and the classifier returns `r`. -/
def successOutcome (env : SafetyEnv) (proc : HordeSafetyProcessState)
    (now : DateParts) (m : HordeSafetyControlMessage) (img64 : String)
    (pil : String) (r : NSFWResult) : ImageOutcome :=
  { eval := { is_nsfw := r.is_nsfw, is_csam := r.is_csam,
              replacement_image_base64 := resolveReplacement proc m r,
              failed := false },
    saved := some { path := outputPath now,
                    metadata_embedded := !env.embedSaveFails pil },
    writes := [{ path := outputPath now, content := pil,
                 pnginfo :=
                   if env.embedSaveFails pil then none
                   else some (metadataEntriesFor env m img64 ++
                     [("Safety",
                       safetyTagValue r (resolveReplacement proc m r))]) }] }

theorem processImage_eq_ok {env : SafetyEnv} {proc : HordeSafetyProcessState}
    {now : DateParts} {m : HordeSafetyControlMessage} {img64 pil : String}
    {r : NSFWResult}
    (hdec : env.decodeImage img64 = some pil)
    (hch : env.checkForNsfw pil m.prompt m.horde_model_info = some r) :
    processImage env proc now m img64 =
      .ok (successOutcome env proc now m img64 pil r) := by
  by_cases hE : env.embedSaveFails pil = true <;>
    simp [processImage, hdec, hch, successOutcome, hE]

theorem processImage_eq_err_decode {env : SafetyEnv}
    {proc : HordeSafetyProcessState} {now : DateParts}
    {m : HordeSafetyControlMessage} {img64 : String}
    (hdec : env.decodeImage img64 = none) :
    processImage env proc now m img64 = .error .unidentifiedImage := by
  simp [processImage, hdec]

theorem processImage_eq_err_check {env : SafetyEnv}
    {proc : HordeSafetyProcessState} {now : DateParts}
    {m : HordeSafetyControlMessage} {img64 pil : String}
    (hdec : env.decodeImage img64 = some pil)
    (hch : env.checkForNsfw pil m.prompt m.horde_model_info = none) :
    processImage env proc now m img64 = .error .nsfwResultNone := by
  simp [processImage, hdec, hch]

theorem processImage_ok_elim {env : SafetyEnv}
    {proc : HordeSafetyProcessState} {now : DateParts}
    {m : HordeSafetyControlMessage} {img64 : String} {o : ImageOutcome}
    (h : processImage env proc now m img64 = .ok o) :
    ∃ pil r, env.decodeImage img64 = some pil ∧
      env.checkForNsfw pil m.prompt m.horde_model_info = some r ∧
      o = successOutcome env proc now m img64 pil r := by
  cases hdec : env.decodeImage img64 with
  | none => rw [processImage_eq_err_decode hdec] at h; exact absurd h (by simp)
  | some pil =>
    cases hch : env.checkForNsfw pil m.prompt m.horde_model_info with
    | none => rw [processImage_eq_err_check hdec hch] at h; exact absurd h (by simp)
    | some r =>
      rw [processImage_eq_ok hdec hch] at h
      exact ⟨pil, r, rfl, hch, (Except.ok.inj h).symm⟩

theorem mapExcept_ok_length {α β ε : Type} (f : α → Except ε β) :
    ∀ (l : List α) (ys : List β), mapExcept f l = .ok ys → ys.length = l.length := by
  intro l
  induction l with
  | nil =>
    intro ys h
    simp only [mapExcept] at h
    cases h
    rfl
  | cons x xs ih =>
    intro ys h
    simp only [mapExcept] at h
    cases hfx : f x with
    | error e => rw [hfx] at h; exact absurd h (by simp)
    | ok y =>
      rw [hfx] at h
      cases hmap : mapExcept f xs with
      | error e => rw [hmap] at h; exact absurd h (by simp)
      | ok ys2 =>
        rw [hmap] at h
        cases h
        simp [ih ys2 hmap]

theorem mapExcept_ok_mem {α β ε : Type} (f : α → Except ε β) :
    ∀ (l : List α) (ys : List β), mapExcept f l = .ok ys →
      ∀ y ∈ ys, ∃ x ∈ l, f x = .ok y := by
  intro l
  induction l with
  | nil =>
    intro ys h
    simp only [mapExcept] at h
    cases h
    intro y hy
    exact absurd hy (by simp)
  | cons x xs ih =>
    intro ys h
    simp only [mapExcept] at h
    cases hfx : f x with
    | error e => rw [hfx] at h; exact absurd h (by simp)
    | ok y0 =>
      rw [hfx] at h
      cases hmap : mapExcept f xs with
      | error e => rw [hmap] at h; exact absurd h (by simp)
      | ok ys2 =>
        rw [hmap] at h
        cases h
        intro y hy
        rcases List.mem_cons.1 hy with rfl | hy2
        · exact ⟨x, List.mem_cons_self _ _, hfx⟩
        · rcases ih ys2 hmap y hy2 with ⟨x2, hx2, hfx2⟩
          exact ⟨x2, List.mem_cons_of_mem _ hx2, hfx2⟩

theorem length_filterMap_of_isSome {α β : Type} (f : α → Option β) :
    ∀ (l : List α), (∀ a ∈ l, (f a).isSome) →
      (l.filterMap f).length = l.length := by
  intro l
  induction l with
  | nil => intro _; rfl
  | cons x xs ih =>
    intro h
    cases hfx : f x with
    | none =>
      have := h x (List.mem_cons_self _ _)
      rw [hfx] at this
      exact absurd this (by simp)
    | some b =>
      simp [List.filterMap_cons, hfx,
        ih (fun a ha => h a (List.mem_cons_of_mem _ ha))]

theorem applyWrites_ne (q : String) :
    ∀ (ws : List FileWrite) (files : String → Option String) (p : String),
      (∀ w ∈ ws, w.path = q) → p ≠ q → applyWrites files ws p = files p := by
  intro ws
  induction ws with
  | nil => intro files p _ _; rfl
  | cons w ws ih =>
    intro files p hq hp
    simp only [applyWrites]
    rw [ih _ p (fun u hu => hq u (List.mem_cons_of_mem _ hu)) hp]
    have hw : w.path = q := hq w (List.mem_cons_self _ _)
    rw [if_neg (by rw [hw]; exact hp)]

theorem applyWrites_getLast (q : String) :
    ∀ (ws : List FileWrite) (files : String → Option String) (w : FileWrite),
      (∀ u ∈ ws, u.path = q) → ws.getLast? = some w →
      applyWrites files ws q = some w.content := by
  intro ws
  induction ws with
  | nil => intro files w _ h; exact absurd h (by simp)
  | cons w0 ws ih =>
    intro files w hq hlast
    cases ws with
    | nil =>
      have hw : w0 = w := by simpa using hlast
      subst hw
      have hp : w0.path = q := hq w0 (List.mem_cons_self _ _)
      simp only [applyWrites]
      rw [if_pos hp.symm]
    | cons w1 ws2 =>
      rw [List.getLast?_cons_cons] at hlast
      simp only [applyWrites]
      exact ih _ w (fun u hu => hq u (List.mem_cons_of_mem _ hu)) hlast

theorem setup_output_directory_eq (fs : FileSystem) (now : DateParts) :
    setup_output_directory fs now =
      { dirs := (((fs.dirs.insert base_output_directory).insert
                    (year_dir now)).insert
                  (year_month_dir now)).insert (year_month_day_dir now),
        perms := fun p =>
          if p = year_month_day_dir now then some 511
          else if p = year_month_dir now then some 511
          else if p = year_dir now then some 511
          else fs.perms p,
        files := fs.files } := by
  rfl

theorem buildMetadataEntries_key_ne_safety (nowIso : String)
    (m : HordeSafetyControlMessage) :
    ∀ e ∈ buildMetadataEntries nowIso m, ¬(e.1 = "Safety") := by
  intro e he
  simp only [buildMetadataEntries, addMetadataText, List.mem_append,
    List.mem_cons, List.not_mem_nil, or_false] at he
  rcases he with he | he
  · rcases he with rfl | rfl | rfl | rfl | rfl | rfl | rfl | rfl | rfl | rfl |
      rfl | rfl | rfl | rfl | rfl | rfl | rfl
    all_goals simp
  · rcases hk : (m.generation_metadata.getD {}).karras with _ | k
    · simp [hk] at he
    · by_cases hs : (m.generation_metadata.getD {}).schedule_type_present = true
      · simp [hk, hs] at he
      · have he2 : e = ("Schedule type", if k then "karras" else "native") := by
          simpa [hk, hs, addMetadataText] using he
        simp [he2]

theorem metadataEntriesFor_key_ne_safety (env : SafetyEnv)
    (m : HordeSafetyControlMessage) (img64 : String) :
    ∀ e ∈ metadataEntriesFor env m img64, ¬(e.1 = "Safety") := by
  intro e he
  refine buildMetadataEntries_key_ne_safety env.nowIso m e ?_
  unfold metadataEntriesFor at he
  cases hk : env.metaKeep img64 with
  | none => rw [hk] at he; exact he
  | some k => rw [hk] at he; exact List.take_subset _ _ he

theorem pyTruthy_resolveReplacement (proc : HordeSafetyProcessState)
    (m : HordeSafetyControlMessage) (r : NSFWResult)
    (hcsam : proc.censor_csam_image_base64 ≠ "")
    (hworker : proc.censor_sfw_worker_image_base64 ≠ "")
    (hreq : proc.censor_sfw_request_image_base64 ≠ "") :
    pyTruthyStr (resolveReplacement proc m r) =
      (resolveReplacement proc m r).isSome := by
  unfold resolveReplacement
  split_ifs <;> simp [pyTruthyStr, hcsam, hworker, hreq]

theorem safetyTagValue_eq_spec (proc : HordeSafetyProcessState)
    (m : HordeSafetyControlMessage) (r : NSFWResult)
    (hcsam : proc.censor_csam_image_base64 ≠ "")
    (hworker : proc.censor_sfw_worker_image_base64 ≠ "")
    (hreq : proc.censor_sfw_request_image_base64 ≠ "") :
    safetyTagValue r (resolveReplacement proc m r) =
      safetySpecVerdict r.is_csam r.is_nsfw
        (resolveReplacement proc m r).isSome := by
  unfold safetyTagValue safetySpecVerdict
  rw [pyTruthy_resolveReplacement proc m r hcsam hworker hreq]

/-! ### Claim theorems -/

/-- C2: for every successfully decoded and classified image, the emitted
evaluation carries the classifier verdict and resolves the replacement
image by strict precedence: on `is_csam` the CSAM placeholder regardless of
the `sfw_worker`/`censor_nsfw` flags, else on `sfw_worker ∧ is_nsfw` the
SFW-worker placeholder, else on `censor_nsfw ∧ is_nsfw` the SFW-request
censor placeholder, else no replacement. -/
theorem replacement_resolution_precedence
    (env : SafetyEnv) (proc : HordeSafetyProcessState) (now : DateParts)
    (m : HordeSafetyControlMessage) (img64 pil : String) (r : NSFWResult)
    (o : ImageOutcome)
    (hdec : env.decodeImage img64 = some pil)
    (hch : env.checkForNsfw pil m.prompt m.horde_model_info = some r)
    (h : processImage env proc now m img64 = .ok o) :
    o.eval.is_nsfw = r.is_nsfw ∧ o.eval.is_csam = r.is_csam ∧
    o.eval.failed = false ∧
    o.eval.replacement_image_base64 =
      (if r.is_csam then some proc.censor_csam_image_base64
       else if m.sfw_worker && r.is_nsfw then
         some proc.censor_sfw_worker_image_base64
       else if m.censor_nsfw && r.is_nsfw then
         some proc.censor_sfw_request_image_base64
       else none) := by
  rw [processImage_eq_ok hdec hch] at h
  obtain rfl := Except.ok.inj h
  exact ⟨rfl, rfl, rfl, rfl⟩

/-- C4: when saving with embedded metadata raises for a decoded and
classified image, the loop still saves the plain image at the expected
output path, records `metadata_embedded = false` for it, and the iteration
completes without an error (the embedding failure never fails the job). -/
theorem embed_save_failure_falls_back_to_plain_save
    (env : SafetyEnv) (proc : HordeSafetyProcessState) (now : DateParts)
    (m : HordeSafetyControlMessage) (img64 pil : String) (r : NSFWResult)
    (hdec : env.decodeImage img64 = some pil)
    (hch : env.checkForNsfw pil m.prompt m.horde_model_info = some r)
    (hE : env.embedSaveFails pil = true) :
    processImage env proc now m img64 =
      .ok { eval := { is_nsfw := r.is_nsfw, is_csam := r.is_csam,
                      replacement_image_base64 := resolveReplacement proc m r,
                      failed := false },
            saved := some { path := outputPath now, metadata_embedded := false },
            writes := [{ path := outputPath now, content := pil,
                         pnginfo := none }] } := by
  rw [processImage_eq_ok hdec hch]
  simp [successOutcome, hE]

/-- C5: for every successfully decoded image the single disk write of its
iteration targets the date-partitioned output path and its content is the
original decoded image, for every combination of the policy flags and the
classifier verdict, hence also when a replacement image was resolved for
the returned evaluation. -/
theorem original_image_persisted_despite_replacement
    (env : SafetyEnv) (proc : HordeSafetyProcessState) (now : DateParts)
    (m : HordeSafetyControlMessage) (img64 pil : String) (r : NSFWResult)
    (o : ImageOutcome)
    (hdec : env.decodeImage img64 = some pil)
    (hch : env.checkForNsfw pil m.prompt m.horde_model_info = some r)
    (h : processImage env proc now m img64 = .ok o) :
    o.writes.map (fun w => w.path) = [outputPath now] ∧
    o.writes.map (fun w => w.content) = [pil] := by
  rw [processImage_eq_ok hdec hch] at h
  obtain rfl := Except.ok.inj h
  exact ⟨rfl, rfl⟩

/-- C3: whenever the handler emits a result message for an
`EVALUATE_SAFETY` batch, that message bundles exactly one safety
evaluation and exactly one saved-image descriptor per input image, plus
the elapsed time and the job id. -/
theorem safety_result_counts_match_batch
    (env : SafetyEnv) (proc : HordeSafetyProcessState) (now : DateParts)
    (m : HordeSafetyControlMessage) (out : EvaluateOutput)
    (h : receive_and_handle_control_message env proc now (.safety m) = .ok out) :
    out.result.safety_evaluations.length = m.images_base64.length ∧
    out.result.saved_images.length = m.images_base64.length ∧
    out.result.time_elapsed = env.timeElapsed ∧
    out.result.job_id = m.job_id := by
  simp only [receive_and_handle_control_message] at h
  by_cases hf : m.control_flag = HordeControlFlag.EVALUATE_SAFETY
  case neg => rw [if_neg hf] at h; exact absurd h (by simp)
  rw [if_pos hf] at h
  unfold handleEvaluateSafety at h
  cases hmap : mapExcept (processImage env proc now m) m.images_base64 with
  | error e => rw [hmap] at h; exact absurd h (by simp)
  | ok outcomes =>
    rw [hmap] at h
    obtain rfl := Except.ok.inj h
    have hlen := mapExcept_ok_length _ _ _ hmap
    have hsome : ∀ o ∈ outcomes, (o.saved).isSome := by
      intro o ho
      obtain ⟨x, hx, hfx⟩ := mapExcept_ok_mem _ _ _ hmap o ho
      obtain ⟨pil, r, _, _, rfl⟩ := processImage_ok_elim hfx
      simp [successOutcome]
    refine ⟨?_, ?_, rfl, rfl⟩
    · simpa using hlen
    · have hfm := length_filterMap_of_isSome (fun o => o.saved) outcomes hsome
      calc (outcomes.filterMap fun o => o.saved).length
          = outcomes.length := hfm
        _ = m.images_base64.length := hlen

/-- C6: the filename timestamp comes from the one `datetime.now()` value
captured before the per-image loop, so within one `EVALUATE_SAFETY` batch
every disk write and every reported saved-image descriptor carries the
identical output path; applying the writes therefore touches no other
path, and the final content at that path is the content of the last write
(a later save overwrites an earlier one). -/
theorem batch_images_share_one_output_path
    (env : SafetyEnv) (proc : HordeSafetyProcessState) (now : DateParts)
    (m : HordeSafetyControlMessage) (out : EvaluateOutput)
    (h : receive_and_handle_control_message env proc now (.safety m) = .ok out) :
    (∀ w ∈ out.writes, w.path = outputPath now) ∧
    (∀ info ∈ out.result.saved_images, info.path = outputPath now) ∧
    (∀ files p, p ≠ outputPath now → applyWrites files out.writes p = files p) ∧
    (∀ files w, out.writes.getLast? = some w →
      applyWrites files out.writes (outputPath now) = some w.content) := by
  simp only [receive_and_handle_control_message] at h
  by_cases hf : m.control_flag = HordeControlFlag.EVALUATE_SAFETY
  case neg => rw [if_neg hf] at h; exact absurd h (by simp)
  rw [if_pos hf] at h
  unfold handleEvaluateSafety at h
  cases hmap : mapExcept (processImage env proc now m) m.images_base64 with
  | error e => rw [hmap] at h; exact absurd h (by simp)
  | ok outcomes =>
    rw [hmap] at h
    obtain rfl := Except.ok.inj h
    have hw : ∀ w ∈ (outcomes.map (fun o => o.writes)).flatten,
        w.path = outputPath now := by
      intro w hwmem
      rw [List.mem_flatten] at hwmem
      obtain ⟨l, hl, hwl⟩ := hwmem
      rw [List.mem_map] at hl
      obtain ⟨o, ho, rfl⟩ := hl
      obtain ⟨x, hx, hfx⟩ := mapExcept_ok_mem _ _ _ hmap o ho
      obtain ⟨pil, r, _, _, rfl⟩ := processImage_ok_elim hfx
      simp only [successOutcome, List.mem_singleton] at hwl
      rw [hwl]
    refine ⟨hw, ?_, ?_, ?_⟩
    · intro info hinfo
      rw [List.mem_filterMap] at hinfo
      obtain ⟨o, ho, hsaved⟩ := hinfo
      obtain ⟨x, hx, hfx⟩ := mapExcept_ok_mem _ _ _ hmap o ho
      obtain ⟨pil, r, _, _, rfl⟩ := processImage_ok_elim hfx
      simp only [successOutcome] at hsaved
      obtain rfl := Option.some.inj hsaved
      rfl
    · intro files p hp
      exact applyWrites_ne (outputPath now) _ files p hw hp
    · intro files w hlast
      exact applyWrites_getLast (outputPath now) _ files w hw hlast

/-- C7: whenever provenance metadata is embedded into a saved file, the
embedded entries contain the `Safety` tag exactly once, and its value is
the spec verdict: `csam` when flagged CSAM, else `censored` when a
replacement image was resolved, else `nsfw` when flagged NSFW, else
`clean` — written unconditionally, also for clean images.  The censor
placeholders are base64 encodings of PNG asset files and hence
nonempty. -/
theorem safety_tag_written_once_with_spec_verdict
    (env : SafetyEnv) (proc : HordeSafetyProcessState) (now : DateParts)
    (m : HordeSafetyControlMessage) (img64 pil : String) (r : NSFWResult)
    (o : ImageOutcome)
    (hdec : env.decodeImage img64 = some pil)
    (hch : env.checkForNsfw pil m.prompt m.horde_model_info = some r)
    (hcsam : proc.censor_csam_image_base64 ≠ "")
    (hworker : proc.censor_sfw_worker_image_base64 ≠ "")
    (hreq : proc.censor_sfw_request_image_base64 ≠ "")
    (h : processImage env proc now m img64 = .ok o) :
    ∀ w ∈ o.writes, ∀ entries, w.pnginfo = some entries →
      entries.filter (fun e => e.1 == "Safety") =
        [("Safety", safetySpecVerdict r.is_csam r.is_nsfw
            o.eval.replacement_image_base64.isSome)] := by
  rw [processImage_eq_ok hdec hch] at h
  obtain rfl := Except.ok.inj h
  intro w hwmem entries hpng
  simp only [successOutcome, List.mem_singleton] at hwmem
  subst hwmem
  by_cases hE : env.embedSaveFails pil = true
  · simp [hE] at hpng
  · simp only [hE, Bool.false_eq_true, if_false] at hpng
    simp only [Option.some.injEq] at hpng
    subst hpng
    rw [List.filter_append]
    have h1 : (metadataEntriesFor env m img64).filter
        (fun e => e.1 == "Safety") = [] := by
      rw [List.filter_eq_nil_iff]
      intro e hemem
      simp only [beq_iff_eq]
      exact metadataEntriesFor_key_ne_safety env m img64 e hemem
    rw [h1]
    rw [safetyTagValue_eq_spec proc m r hcsam hworker hreq]
    simp [successOutcome]

theorem setup_output_directory_idem (fs : FileSystem) (now : DateParts) :
    setup_output_directory (setup_output_directory fs now) now =
      setup_output_directory fs now := by
  simp only [setup_output_directory_eq]
  congr 1
  · have hb : base_output_directory ∈
        (((fs.dirs.insert base_output_directory).insert
            (year_dir now)).insert
          (year_month_dir now)).insert (year_month_day_dir now) := by
      simp [List.mem_insert_iff]
    rw [List.insert_of_mem hb]
    have hy : year_dir now ∈
        (((fs.dirs.insert base_output_directory).insert
            (year_dir now)).insert
          (year_month_dir now)).insert (year_month_day_dir now) := by
      simp [List.mem_insert_iff]
    rw [List.insert_of_mem hy]
    have hm : year_month_dir now ∈
        (((fs.dirs.insert base_output_directory).insert
            (year_dir now)).insert
          (year_month_dir now)).insert (year_month_day_dir now) := by
      simp [List.mem_insert_iff]
    rw [List.insert_of_mem hm]
    have hd : year_month_day_dir now ∈
        (((fs.dirs.insert base_output_directory).insert
            (year_dir now)).insert
          (year_month_dir now)).insert (year_month_day_dir now) := by
      simp [List.mem_insert_iff]
    rw [List.insert_of_mem hd]
  · funext p
    by_cases h1 : p = year_month_day_dir now
    · simp [h1]
    · by_cases h2 : p = year_month_dir now
      · simp [h1, h2]
      · by_cases h3 : p = year_dir now <;> simp [h1, h2, h3]

/-- C8: output-directory resolution builds
`<base>/<year>/<year>-<month>/<year>-<month>-<day>/`, creates the three
levels (idempotently: a second run for the same day is a no-op on the
whole filesystem state, and `os.makedirs` with `exist_ok=True` raises no
error), applies mode `0o777` to the three date directories, changes the
permissions of no other path, and touches no file contents. -/
theorem output_directory_setup_exact_and_idempotent
    (fs : FileSystem) (now : DateParts) :
    (year_dir now ∈ (setup_output_directory fs now).dirs ∧
     year_month_dir now ∈ (setup_output_directory fs now).dirs ∧
     year_month_day_dir now ∈ (setup_output_directory fs now).dirs) ∧
    setup_output_directory (setup_output_directory fs now) now =
      setup_output_directory fs now ∧
    ((setup_output_directory fs now).perms (year_dir now) = some 511 ∧
     (setup_output_directory fs now).perms (year_month_dir now) = some 511 ∧
     (setup_output_directory fs now).perms (year_month_day_dir now) = some 511) ∧
    (∀ p, p ≠ year_dir now → p ≠ year_month_dir now →
      p ≠ year_month_day_dir now →
      (setup_output_directory fs now).perms p = fs.perms p) ∧
    (setup_output_directory fs now).files = fs.files := by
  refine ⟨?_, setup_output_directory_idem fs now, ⟨?_, ?_, ?_⟩, ?_, ?_⟩
  · simp [setup_output_directory_eq, List.mem_insert_iff]
  · rw [setup_output_directory_eq]
    show (if year_dir now = year_month_day_dir now then some 511
      else if year_dir now = year_month_dir now then some 511
      else if year_dir now = year_dir now then some 511
      else fs.perms (year_dir now)) = some 511
    split_ifs with hA hB hC
    all_goals first | rfl | exact absurd rfl hC
  · rw [setup_output_directory_eq]
    show (if year_month_dir now = year_month_day_dir now then some 511
      else if year_month_dir now = year_month_dir now then some 511
      else if year_month_dir now = year_dir now then some 511
      else fs.perms (year_month_dir now)) = some 511
    split_ifs with hA hB hC
    all_goals first | rfl | exact absurd rfl hB
  · rw [setup_output_directory_eq]
    show (if year_month_day_dir now = year_month_day_dir now then some 511
      else if year_month_day_dir now = year_month_dir now then some 511
      else if year_month_day_dir now = year_dir now then some 511
      else fs.perms (year_month_day_dir now)) = some 511
    split_ifs with hA hB hC
    all_goals first | rfl | exact absurd rfl hA
  · intro p hp1 hp2 hp3
    rw [setup_output_directory_eq]
    show (if p = year_month_day_dir now then some 511
      else if p = year_month_dir now then some 511
      else if p = year_dir now then some 511
      else fs.perms p) = fs.perms p
    rw [if_neg hp3, if_neg hp2, if_neg hp1]
  · rw [setup_output_directory_eq]

/-- C9: a control message that is not a `HordeSafetyControlMessage` makes
the handler raise `TypeError`, and a safety control message whose flag is
not `EVALUATE_SAFETY` makes it raise `ValueError`; in both cases the run
ends in an error, so no safety evaluation and no result message is
produced for that message. -/
theorem wrong_message_or_flag_raises_and_produces_nothing
    (env : SafetyEnv) (proc : HordeSafetyProcessState) (now : DateParts)
    (flag : HordeControlFlag) (m : HordeSafetyControlMessage)
    (hflag : m.control_flag ≠ HordeControlFlag.EVALUATE_SAFETY) :
    receive_and_handle_control_message env proc now (.nonSafety flag) =
      .error .typeError ∧
    receive_and_handle_control_message env proc now (.safety m) =
      .error (.valueError m.control_flag) := by
  constructor
  · rfl
  · simp [receive_and_handle_control_message, hflag]

/-- C10: the user-info/kudos polling interval against the remote job
source is at least 60 seconds for all configurations (the attribute is a
class constant, not tunable). -/
theorem api_get_user_info_interval_at_least_sixty :
    60 ≤ api_get_user_info_interval :=
  Nat.le_refl 60

/-- C1: in a three-image `EVALUATE_SAFETY` batch whose second image does
not decode, the handler aborts with the uncaught PIL error from the
unguarded `Image.open(image_bytes)` at line 237 — it runs before the
guarded open at line 357 on the same bytes, so the fail-closed branch is
never reached, no evaluation is appended and no result message is put on
the queue. -/
theorem undecodable_image_aborts_whole_batch :
    receive_and_handle_control_message envC1 proc0 now0 (.safety msgC1) =
      .error .unidentifiedImage := by
  rfl

/-! ### Witnesses -/

/-- Witness for C2 at a concrete input: CSAM flagged, so the emitted
evaluation carries the CSAM placeholder. -/
theorem replacement_resolution_precedence_witness :
    (successOutcome envCsam proc0 now0 msg0 "a" "a"
        { is_nsfw := true, is_csam := true }).eval.replacement_image_base64 =
      some proc0.censor_csam_image_base64 := by
  have h := replacement_resolution_precedence envCsam proc0 now0 msg0 "a" "a"
    { is_nsfw := true, is_csam := true } _ rfl rfl (processImage_eq_ok rfl rfl)
  simpa using h.2.2.2

/-- Witness for C3 at a concrete two-image batch. -/
theorem safety_result_counts_match_batch_witness :
    out2.result.safety_evaluations.length = msg2.images_base64.length ∧
    out2.result.saved_images.length = msg2.images_base64.length ∧
    out2.result.time_elapsed = env0.timeElapsed ∧
    out2.result.job_id = msg2.job_id :=
  safety_result_counts_match_batch env0 proc0 now0 msg2 out2 (by rfl)

/-- Witness for C4 at a concrete input where the metadata-embedding save
raises. -/
theorem embed_save_failure_falls_back_to_plain_save_witness :
    processImage envEmbedFail proc0 now0 msg0 "a" =
      .ok { eval := { is_nsfw := false, is_csam := false,
                      replacement_image_base64 :=
                        resolveReplacement proc0 msg0
                          { is_nsfw := false, is_csam := false },
                      failed := false },
            saved := some { path := outputPath now0, metadata_embedded := false },
            writes := [{ path := outputPath now0, content := "a",
                         pnginfo := none }] } :=
  embed_save_failure_falls_back_to_plain_save envEmbedFail proc0 now0 msg0 "a"
    "a" { is_nsfw := false, is_csam := false } rfl rfl rfl

/-- Witness for C5 at a concrete input where a replacement was resolved:
the write still targets the dated path with the original content. -/
theorem original_image_persisted_despite_replacement_witness :
    (successOutcome envCsam proc0 now0 msg0 "a" "a"
        { is_nsfw := true, is_csam := true }).writes.map (fun w => w.path) =
      [outputPath now0] ∧
    (successOutcome envCsam proc0 now0 msg0 "a" "a"
        { is_nsfw := true, is_csam := true }).writes.map (fun w => w.content) =
      ["a"] :=
  original_image_persisted_despite_replacement envCsam proc0 now0 msg0 "a" "a"
    { is_nsfw := true, is_csam := true } _ rfl rfl (processImage_eq_ok rfl rfl)

/-- Witness for C6 at a concrete two-image batch: the second write lands
on the same file and overwrites the first, other paths are untouched. -/
theorem batch_images_share_one_output_path_witness :
    applyWrites (fun _ => none) out2.writes (outputPath now0) = some "b" ∧
    applyWrites (fun _ => none) out2.writes "/elsewhere" = none := by
  have h := batch_images_share_one_output_path env0 proc0 now0 msg2 out2
    (by rfl)
  refine ⟨?_, ?_⟩
  · have h4 := h.2.2.2 (fun _ => none) (writeClean "b") (by decide)
    simpa using h4
  · have h3 := h.2.2.1 (fun _ => none) "/elsewhere" (by decide)
    simpa using h3

/-- Witness for C7 at a concrete CSAM-flagged input: the embedded entries
carry exactly one `Safety` tag with value `csam`. -/
theorem safety_tag_written_once_with_spec_verdict_witness :
    entriesCsam.filter (fun e => e.1 == "Safety") = [("Safety", "csam")] := by
  have h := safety_tag_written_once_with_spec_verdict envCsam proc0 now0 msg0
    "a" "a" { is_nsfw := true, is_csam := true } _ rfl rfl (by decide)
    (by decide) (by decide) (processImage_eq_ok rfl rfl)
  have h2 := h { path := path0, content := "a", pnginfo := some entriesCsam }
    (by decide) entriesCsam rfl
  simpa [successOutcome, safetySpecVerdict, resolveReplacement] using h2

/-- Witness for C8 at a concrete filesystem: an unrelated path keeps its
permissions, a date directory gets mode 511, and a second run is a
no-op. -/
theorem output_directory_setup_exact_and_idempotent_witness :
    (setup_output_directory fs0 now0).perms "/etc/hosts" =
      fs0.perms "/etc/hosts" ∧
    (setup_output_directory fs0 now0).perms (year_dir now0) = some 511 ∧
    setup_output_directory (setup_output_directory fs0 now0) now0 =
      setup_output_directory fs0 now0 := by
  have h := output_directory_setup_exact_and_idempotent fs0 now0
  exact ⟨h.2.2.2.1 "/etc/hosts" (by decide) (by decide) (by decide),
    h.2.2.1.1, h.2.1⟩

/-- Witness for C9 at concrete wrong inputs. -/
theorem wrong_message_or_flag_raises_and_produces_nothing_witness :
    receive_and_handle_control_message env0 proc0 now0
        (.nonSafety .RUN_INFERENCE) = .error .typeError ∧
    receive_and_handle_control_message env0 proc0 now0 (.safety msgShutdown) =
      .error (.valueError HordeControlFlag.SHUTDOWN) := by
  have h := wrong_message_or_flag_raises_and_produces_nothing env0 proc0 now0
    .RUN_INFERENCE msgShutdown (by decide)
  exact h
